import Mathlib

/-!
Verification of the business strategy simulator (src/app.py).

All money and rate values are modelled as exact rationals (ℚ).  The single
source of randomness, `pd.np.random.rand()`, is modelled as an injected
parameter `u` with the contract `0 ≤ u < 1`; the code derives the run's
`actual_factor` from it as `0.9 + 0.2 * u`.
-/

namespace StrategySim

/-- Growth-mode parameter set, as stored in `st.session_state["predictions"]`
on the Input Data page.  `GrowthRate` is the slider value in percent. -/
structure Predictions where
  Revenue : ℚ
  Cost : ℚ
  GrowthRate : ℚ
  Months : ℕ
  deriving DecidableEq

/-- The widget ranges of the Input Data page: revenue number_input 1000..1000000,
cost number_input 500..500000, growth slider 0..50 (percent), months slider 1..36. -/
def ValidPredictions (d : Predictions) : Prop :=
  1000 ≤ d.Revenue ∧ d.Revenue ≤ 1000000 ∧
  500 ≤ d.Cost ∧ d.Cost ≤ 500000 ∧
  0 ≤ d.GrowthRate ∧ d.GrowthRate ≤ 50 ∧
  1 ≤ d.Months ∧ d.Months ≤ 36

instance (d : Predictions) : Decidable (ValidPredictions d) := by
  unfold ValidPredictions; infer_instance

/-- One row of the results DataFrame:
columns Month, PredictedRevenue, ActualRevenue, Cost. -/
structure PeriodRecord where
  month : ℕ
  predictedRevenue : ℚ
  actualRevenue : ℚ
  cost : ℚ
  deriving DecidableEq

/-- `actual_factor = 0.9 + (0.2 * pd.np.random.rand())` with the random draw
`u` injected. -/
def actualFactor (u : ℚ) : ℚ := 0.9 + (0.2 * u)

/-- The Run Simulation loop (src/app.py lines 127-133): for m in 1..months,
pred = revenue * (1+growth/100)^(m-1), act = pred * actual_factor, cost column
constant at the input cost. -/
def runSimulation (data : Predictions) (u : ℚ) : List PeriodRecord :=
  let predicted_rev := data.Revenue
  let growth_rate := data.GrowthRate / 100
  let months := data.Months
  let actual_factor := actualFactor u
  (List.range months).map (fun i =>
    let m := i + 1
    let pred := predicted_rev * (1 + growth_rate) ^ (m - 1)
    let act := pred * actual_factor
    { month := m, predictedRevenue := pred, actualRevenue := act,
      cost := data.Cost })

/-- `df[col].mean()` of pandas: sum of the column divided by its length. -/
def colMean (xs : List ℚ) : ℚ := xs.sum / xs.length

/-- `avg_pred = df["PredictedRevenue"].mean()` (line 152). -/
def avgPred (df : List PeriodRecord) : ℚ := colMean (df.map (·.predictedRevenue))

/-- `avg_act = df["ActualRevenue"].mean()` (line 153). -/
def avgAct (df : List PeriodRecord) : ℚ := colMean (df.map (·.actualRevenue))

/-- The three messages of the positive-gap branch of `generate_feedback`. -/
def scaleUpMsgs : List String :=
  ["Your strategy performed better than predicted — scale the approach.",
   "Consider reinvesting profits into marketing or product improvement.",
   "Evaluate if similar strategies can work in new markets."]

/-- The three messages of the non-positive-gap branch of `generate_feedback`. -/
def reviewCostsMsgs : List String :=
  ["Results underperformed prediction — review your cost structure.",
   "Reassess pricing and customer acquisition channels.",
   "Run a smaller pilot before full-scale rollout next time."]

/-- `generate_feedback(predicted, actual)` (src/app.py lines 27-40). -/
def generate_feedback (predicted actual : ℚ) : List String :=
  let gap := actual - predicted
  if gap > 0 then scaleUpMsgs else reviewCostsMsgs

/-- `download_link(df, file_type)` (src/app.py lines 12-25), with the
base64 payload of the serialized DataFrame abstracted as `b64`.  Only the
`"csv"` and `"excel"` branches assign `mime` and `ext`; any other
`file_type` reaches `f"...{mime}...{ext}..."` with both unbound, raising
`UnboundLocalError` — modelled as `none`. -/
def download_link (b64 : String) (file_type : String) : Option String :=
  let assigned : Option (String × String) :=
    if file_type = "csv" then
      some ("text/csv", "csv")
    else if file_type = "excel" then
      some ("application/vnd.openxmlformats-officedocument.spreadsheetml.sheet", "xlsx")
    else
      none
  assigned.map (fun me =>
    "<a href=\"data:" ++ me.1 ++ ";base64," ++ b64 ++ "\" download=\"strategy_results."
      ++ me.2 ++ "\">📥 Download " ++ file_type.toUpper ++ "</a>")

/-! ### PDF report model

`generate_pdf_report` (src/app.py lines 42-81) issues `drawString` calls on a
ReportLab canvas; we model the report as the list of issued text lines,
each tagged with its page number and y coordinate.  Font and x-coordinate
calls carry no content and are omitted. -/

/-- Height of an A4 page in points: 297 mm · 72/25.4 pt/mm
(`reportlab.lib.pagesizes.A4`). -/
def pdfHeight : ℚ := 297 * 72 / (254 / 10)

/-- Two decimal digits of `k` (`k < 100`), as in the fractional part of
Python's fixed-point formatting. -/
def twoDigits (k : ℕ) : String :=
  String.mk [Char.ofNat (48 + k / 10 % 10), Char.ofNat (48 + k % 10)]

/-- Insert a thousands separator every three digits, counting from the right;
the input and output digit lists are least-significant first. -/
def groupRight : List Char → List Char
  | a :: b :: c :: d :: rest => a :: b :: c :: ',' :: groupRight (d :: rest)
  | l => l

/-- Digits of `n` with thousands separators, as in Python's `,` format flag. -/
def withSeparators (n : ℕ) : String :=
  String.mk (groupRight (Nat.toDigits 10 n).reverse).reverse

/-- Python's `f"{x:,.2f}"` on a nonnegative amount: round to hundredths, then
print the integer part with thousands separators and exactly two fractional
digits. -/
def fmtCurrency (x : ℚ) : String :=
  let n := (round (x * 100)).toNat
  withSeparators (n / 100) ++ "." ++ twoDigits (n % 100)

/-- The table line drawn for one DataFrame row (src/app.py line 72). -/
def rowLine (r : PeriodRecord) : String :=
  "Month " ++ toString r.month ++ " | Predicted: $" ++ fmtCurrency r.predictedRevenue
    ++ " | Actual: $" ++ fmtCurrency r.actualRevenue
    ++ " | Cost: $" ++ fmtCurrency r.cost

/-- A drawn line of the report: (page number, y coordinate, text). -/
abbrev PdfLine := ℕ × ℚ × String

/-- The feedback loop (lines 61-63): each tip drawn as `"- {tip}"` at `y`,
stepping down 20 points, no pagination check. -/
def tipLines : List String → ℚ → List PdfLine
  | [], _ => []
  | t :: ts, y => (1, y, "- " ++ t) :: tipLines ts (y - 20)

/-- The data-table loop (lines 71-76): draw the row at the current `y`,
step down 15 points, and when `y` drops below 50 start a new page at
`pdfHeight - 50`. -/
def pdfRows : List PeriodRecord → ℕ → ℚ → List PdfLine
  | [], _, _ => []
  | r :: rs, page, y =>
    (page, y, rowLine r) ::
      (if y - 15 < 50 then pdfRows rs (page + 1) (pdfHeight - 50)
       else pdfRows rs page (y - 15))

/-- `generate_pdf_report(df, avg_pred, avg_act, feedback)` as the sequence of
drawn lines (src/app.py lines 42-81). -/
def generate_pdf_report (df : List PeriodRecord) (avg_pred avg_act : ℚ)
    (feedback : List String) : List PdfLine :=
  let y0 := pdfHeight - 150
  let y1 := y0 - 20 * feedback.length
  let y2 := y1 - 20
  [(1, pdfHeight - 50, "Business Strategy Simulation Report"),
   (1, pdfHeight - 80, "Predicted Average Revenue: $" ++ fmtCurrency avg_pred),
   (1, pdfHeight - 100, "Actual Average Revenue: $" ++ fmtCurrency avg_act),
   (1, pdfHeight - 130, "Recommendations:")]
  ++ tipLines feedback y0
  ++ (1, y2, "Simulation Data:") :: pdfRows df 1 (y2 - 20)

/-! ### SaaS mode

Modelled from the spec: the spec (§2, §4.1) describes a second, SaaS-mode
simulation variant of this repository; its code is not under src/ (src/ holds
only the growth-mode app), so the definitions below follow the spec's
recurrence in §4.1 verbatim. -/

/-- Modelled from the spec: SaaS-mode ParameterSet (§3); the SaaS variant's
source is not under src/. -/
structure SaasParams where
  mrr : ℚ
  customers : ℚ
  churnRate : ℚ
  cac : ℚ
  marketingBudget : ℚ
  arpu : ℚ
  months : ℕ
  deriving DecidableEq

/-- Modelled from the spec: SaaS-mode PeriodRecord (§3); the SaaS variant's
source is not under src/. -/
structure SaasRecord where
  month : ℕ
  customers : ℚ
  mrr : ℚ
  newCustomers : ℚ
  churnedCustomers : ℚ
  deriving DecidableEq

/-- Modelled from the spec: `newCustomers(m) = marketingBudget / cac` when
`cac > 0`, else `0` (§4.1); constant across months. -/
def saasNewCustomers (p : SaasParams) : ℚ :=
  if p.cac > 0 then p.marketingBudget / p.cac else 0

/-- Modelled from the spec: the threaded customer count, `customers_0` being
the initial input and
`customers(m) = customers(m-1) - churned(m) + newCustomers(m)` (§4.1). -/
def saasCustomers (p : SaasParams) : ℕ → ℚ
  | 0 => p.customers
  | m + 1 => saasCustomers p m - saasCustomers p m * p.churnRate + saasNewCustomers p

/-- Modelled from the spec: `churned(m) = customers_(m-1) * churnRate` (§4.1). -/
def saasChurned (p : SaasParams) (m : ℕ) : ℚ := saasCustomers p (m - 1) * p.churnRate

/-- Modelled from the spec: `mrr(m) = customers(m) * arpu` (§4.1). -/
def saasMrr (p : SaasParams) (m : ℕ) : ℚ := saasCustomers p m * p.arpu

/-- Round to two decimal places (spec §4.1: per-period outputs are rounded to
2 decimals at emission, unrounded state threads forward). -/
def round2 (q : ℚ) : ℚ := (round (q * 100) : ℚ) / 100

/-- Modelled from the spec: the SaaS-mode `simulate` (§4.1) — a stateful scan
over months 1..months emitting rounded per-period records. -/
def saasSimulate (p : SaasParams) : List SaasRecord :=
  (List.range p.months).map (fun i =>
    let m := i + 1
    { month := m,
      customers := round2 (saasCustomers p m),
      mrr := round2 (saasMrr p m),
      newCustomers := round2 (saasNewCustomers p),
      churnedCustomers := round2 (saasChurned p m) })

/-! ## Helper lemmas -/

theorem runSimulation_length (d : Predictions) (u : ℚ) :
    (runSimulation d u).length = d.Months := by
  simp [runSimulation]

theorem runSimulation_get (d : Predictions) (u : ℚ) (i : ℕ)
    (h : i < (runSimulation d u).length) :
    (runSimulation d u).get ⟨i, h⟩ =
      { month := i + 1,
        predictedRevenue := d.Revenue * (1 + d.GrowthRate / 100) ^ i,
        actualRevenue := d.Revenue * (1 + d.GrowthRate / 100) ^ i * actualFactor u,
        cost := d.Cost } := by
  simp [runSimulation]

theorem runSimulation_mem (d : Predictions) (u : ℚ) (r : PeriodRecord)
    (hr : r ∈ runSimulation d u) :
    ∃ i < d.Months,
      r = { month := i + 1,
            predictedRevenue := d.Revenue * (1 + d.GrowthRate / 100) ^ i,
            actualRevenue := d.Revenue * (1 + d.GrowthRate / 100) ^ i * actualFactor u,
            cost := d.Cost } := by
  simp only [runSimulation, List.mem_map, List.mem_range] at hr
  obtain ⟨i, hi, hrec⟩ := hr
  exact ⟨i, hi, hrec.symm⟩

theorem valid_growth_base_pos (d : Predictions) (hv : ValidPredictions d) :
    0 < 1 + d.GrowthRate / 100 := by
  obtain ⟨-, -, -, -, hg, -, -, -⟩ := hv
  have : (0 : ℚ) ≤ d.GrowthRate / 100 := by positivity
  linarith

theorem runSimulation_pred_pos (d : Predictions) (u : ℚ) (hv : ValidPredictions d) :
    ∀ r ∈ runSimulation d u, 0 < r.predictedRevenue := by
  intro r hr
  obtain ⟨i, -, rfl⟩ := runSimulation_mem d u r hr
  have hR : (0 : ℚ) < d.Revenue := lt_of_lt_of_le (by norm_num) hv.1
  exact mul_pos hR (pow_pos (valid_growth_base_pos d hv) i)

theorem generate_feedback_spec (p a : ℚ) :
    (generate_feedback p a = scaleUpMsgs ↔ p < a)
    ∧ (generate_feedback p a = reviewCostsMsgs ↔ a ≤ p) := by
  have hne : scaleUpMsgs ≠ reviewCostsMsgs := by decide
  unfold generate_feedback
  by_cases h : a - p > 0
  · rw [if_pos h]
    constructor
    · exact ⟨fun _ => by linarith, fun _ => rfl⟩
    · exact ⟨fun hc => absurd hc hne, fun hc => by linarith⟩
  · rw [if_neg h]
    constructor
    · exact ⟨fun hc => absurd hc.symm hne, fun hc => by exact absurd (by linarith) h⟩
    · exact ⟨fun _ => by linarith, fun _ => rfl⟩

theorem sum_map_mul_const (l : List ℚ) (c : ℚ) :
    (l.map (fun x => x * c)).sum = l.sum * c := by
  induction l with
  | nil => simp
  | cons x xs ih => simp [ih, add_mul]

theorem runSimulation_act_col (d : Predictions) (u : ℚ) :
    (runSimulation d u).map (·.actualRevenue)
      = ((runSimulation d u).map (·.predictedRevenue)).map (· * actualFactor u) := by
  simp [runSimulation, List.map_map, Function.comp]

theorem avgAct_eq_avgPred_mul (d : Predictions) (u : ℚ) :
    avgAct (runSimulation d u) = avgPred (runSimulation d u) * actualFactor u := by
  unfold avgAct avgPred colMean
  rw [runSimulation_act_col, sum_map_mul_const, List.length_map, mul_div_right_comm]

theorem avgPred_pos (d : Predictions) (u : ℚ) (hv : ValidPredictions d) :
    0 < avgPred (runSimulation d u) := by
  unfold avgPred colMean
  have hlen : (runSimulation d u).length = d.Months := runSimulation_length d u
  have hm : 1 ≤ d.Months := hv.2.2.2.2.2.2.1
  have hne : (runSimulation d u).map (·.predictedRevenue) ≠ [] := by
    intro hc
    have := congrArg List.length hc
    simp [hlen] at this
    omega
  have hpos : 0 < ((runSimulation d u).map (·.predictedRevenue)).sum := by
    apply List.sum_pos
    · intro x hx
      obtain ⟨r, hr, rfl⟩ := List.mem_map.mp hx
      exact runSimulation_pred_pos d u hv r hr
    · exact hne
  have hlpos : (0 : ℚ) < ((runSimulation d u).map (·.predictedRevenue)).length := by
    rw [List.length_map]
    rw [hlen]
    exact_mod_cast hm
  exact div_pos hpos hlpos

theorem pdfRows_texts (rs : List PeriodRecord) (page : ℕ) (y : ℚ) :
    (pdfRows rs page y).map (fun e => e.2.2) = rs.map rowLine := by
  induction rs generalizing page y with
  | nil => rfl
  | cons r rest ih =>
    simp only [pdfRows, List.map_cons, List.map]
    split <;> simp [ih]

theorem pdfRows_length (rs : List PeriodRecord) (page : ℕ) (y : ℚ) :
    (pdfRows rs page y).length = rs.length := by
  have := congrArg List.length (pdfRows_texts rs page y)
  simpa using this

theorem tipLines_texts (ts : List String) (y : ℚ) :
    (tipLines ts y).map (fun e => e.2.2) = ts.map (fun t => "- " ++ t) := by
  induction ts generalizing y with
  | nil => rfl
  | cons t rest ih => simp [tipLines, ih]

theorem pdfHeight_large : (100 : ℚ) ≤ pdfHeight := by
  norm_num [pdfHeight]

theorem pdfRows_y_ge (rs : List PeriodRecord) (page : ℕ) (y : ℚ) (hy : 50 ≤ y) :
    ∀ e ∈ pdfRows rs page y, 50 ≤ e.2.1 := by
  induction rs generalizing page y with
  | nil => intro e he; simp [pdfRows] at he
  | cons r rest ih =>
    intro e he
    simp only [pdfRows, List.mem_cons] at he
    rcases he with rfl | he
    · exact hy
    · revert he
      split
      · intro he
        exact ih _ _ (by linarith [pdfHeight_large]) e he
      · rename_i h
        intro he
        exact ih _ _ (by linarith [not_lt.mp h]) e he

/-- The pagination step between two consecutive drawn table rows: either the
next row stays on the same page 15 points lower with the line budget not yet
exhausted, or the budget is exhausted (next y would drop below 50) and the
next row opens a fresh page at the top margin. -/
def rowStep (a b : PdfLine) : Prop :=
  (b.1 = a.1 ∧ b.2.1 = a.2.1 - 15 ∧ 50 ≤ a.2.1 - 15) ∨
  (b.1 = a.1 + 1 ∧ b.2.1 = pdfHeight - 50 ∧ a.2.1 - 15 < 50)

theorem pdfRows_chain (rs : List PeriodRecord) (page : ℕ) (y : ℚ) :
    List.Chain' rowStep (pdfRows rs page y) := by
  induction rs generalizing page y with
  | nil => simp [pdfRows]
  | cons r rest ih =>
    rw [pdfRows, List.chain'_cons']
    constructor
    · intro b hb
      cases rest with
      | nil =>
        revert hb
        split <;> simp [pdfRows]
      | cons r2 rest2 =>
        revert hb
        split
        · rename_i h
          rw [pdfRows]
          intro hb
          simp only [List.head?_cons, Option.mem_def, Option.some.injEq] at hb
          subst hb
          exact Or.inr ⟨rfl, rfl, h⟩
        · rename_i h
          rw [pdfRows]
          intro hb
          simp only [List.head?_cons, Option.mem_def, Option.some.injEq] at hb
          subst hb
          exact Or.inl ⟨rfl, rfl, not_lt.mp h⟩
    · split <;> exact ih _ _

/-! ## Claim theorems -/

/-- C1: in growth mode, for every validated parameter set and every month m in
1..months, the m-th record's predicted revenue is
`Revenue * (1 + GrowthRate/100)^(m-1)` and its actual revenue is that value
times the run's actual factor; in particular with revenue 1000, growth 10%,
months 3 and the draw u = 1/2 (so the factor is exactly 1.0) the predicted
series is [1000, 1100, 1210]. -/
theorem growth_recurrence_C1 (d : Predictions) (u : ℚ) (hv : ValidPredictions d)
    (m : ℕ) (h1 : 1 ≤ m) (hm : m ≤ d.Months) :
    (∃ h : m - 1 < (runSimulation d u).length,
      ((runSimulation d u).get ⟨m - 1, h⟩).predictedRevenue
          = d.Revenue * (1 + d.GrowthRate / 100) ^ (m - 1)
        ∧ ((runSimulation d u).get ⟨m - 1, h⟩).actualRevenue
          = d.Revenue * (1 + d.GrowthRate / 100) ^ (m - 1) * actualFactor u)
    ∧ actualFactor (1/2) = 1
    ∧ (runSimulation ⟨1000, 500, 10, 3⟩ (1/2)).map (·.predictedRevenue)
        = [1000, 1100, 1210] := by
  refine ⟨?_, by norm_num [actualFactor], ?_⟩
  · have h : m - 1 < (runSimulation d u).length := by
      rw [runSimulation_length]; omega
    refine ⟨h, ?_, ?_⟩ <;> rw [runSimulation_get]
  · simp [runSimulation, List.range_succ]
    norm_num

/-- Witness for C1 at revenue 1000, cost 500, growth 10, months 3, u = 0, m = 2. -/
theorem growth_recurrence_C1_witness :
    ValidPredictions ⟨1000, 500, 10, 3⟩ ∧ (1 : ℕ) ≤ 2 ∧ (2 : ℕ) ≤ 3
    ∧ (runSimulation ⟨1000, 500, 10, 3⟩ (1/2)).map (·.predictedRevenue)
        = [1000, 1100, 1210] :=
  ⟨by decide, by decide, by decide,
   (growth_recurrence_C1 ⟨1000, 500, 10, 3⟩ 0 (by decide) 2 (by decide) (by decide)).2.2⟩

/-- C2: for every validated parameter set the simulation returns exactly
`months` records whose month fields are the contiguous ascending sequence
1..months. -/
theorem simulate_length_months_C2 (d : Predictions) (u : ℚ) (hv : ValidPredictions d) :
    (runSimulation d u).length = d.Months
    ∧ ∀ (i : ℕ) (h : i < (runSimulation d u).length),
        ((runSimulation d u).get ⟨i, h⟩).month = i + 1 := by
  refine ⟨runSimulation_length d u, fun i h => ?_⟩
  rw [runSimulation_get]

/-- Witness for C2 at revenue 1000, cost 500, growth 10, months 3, u = 0. -/
theorem simulate_length_months_C2_witness :
    ValidPredictions ⟨1000, 500, 10, 3⟩
    ∧ (runSimulation ⟨1000, 500, 10, 3⟩ 0).length = 3 :=
  ⟨by decide, (simulate_length_months_C2 ⟨1000, 500, 10, 3⟩ 0 (by decide)).1⟩

/-- C3: the actual factor `0.9 + 0.2u` of a run lies in [0.9, 1.1] for any
draw u ∈ [0, 1), and is held constant across all months of the run: every
record's actual revenue is its predicted revenue times that one factor, so
the ratio actual/predicted is the same for every month. -/
theorem actual_factor_once_C3 (d : Predictions) (u : ℚ) (hv : ValidPredictions d)
    (hu0 : 0 ≤ u) (hu1 : u < 1) :
    (9/10 ≤ actualFactor u ∧ actualFactor u ≤ 11/10)
    ∧ (∀ r ∈ runSimulation d u, r.actualRevenue = r.predictedRevenue * actualFactor u)
    ∧ (∀ r ∈ runSimulation d u, r.actualRevenue / r.predictedRevenue = actualFactor u) := by
  have hconst : ∀ r ∈ runSimulation d u,
      r.actualRevenue = r.predictedRevenue * actualFactor u := by
    intro r hr
    obtain ⟨i, -, rfl⟩ := runSimulation_mem d u r hr
    rfl
  refine ⟨⟨?_, ?_⟩, hconst, ?_⟩
  · unfold actualFactor; norm_num; linarith
  · unfold actualFactor; norm_num; linarith
  · intro r hr
    have hpos := runSimulation_pred_pos d u hv r hr
    rw [hconst r hr]
    exact mul_div_cancel_left₀ _ (ne_of_gt hpos)

/-- Witness for C3 at revenue 1000, cost 500, growth 10, months 3, u = 0. -/
theorem actual_factor_once_C3_witness :
    ValidPredictions ⟨1000, 500, 10, 3⟩ ∧ (0 : ℚ) ≤ 0 ∧ (0 : ℚ) < 1
    ∧ (9/10 ≤ actualFactor 0 ∧ actualFactor 0 ≤ 11/10) :=
  ⟨by decide, le_refl 0, by norm_num,
   (actual_factor_once_C3 ⟨1000, 500, 10, 3⟩ 0 (by decide) (le_refl 0) (by norm_num)).1⟩

/-- C4: `generate_feedback` returns the fixed 3-item scale-up list exactly
when actual − predicted is strictly positive and the fixed 3-item
review-costs list exactly when the gap is ≤ 0; an exact tie yields the
review-costs list, and the two lists are distinct. -/
theorem feedback_branches_C4 (p a : ℚ) :
    (generate_feedback p a = scaleUpMsgs ↔ p < a)
    ∧ (generate_feedback p a = reviewCostsMsgs ↔ a ≤ p)
    ∧ generate_feedback p p = reviewCostsMsgs
    ∧ scaleUpMsgs.length = 3
    ∧ reviewCostsMsgs.length = 3
    ∧ scaleUpMsgs ≠ reviewCostsMsgs := by
  refine ⟨(generate_feedback_spec p a).1, (generate_feedback_spec p a).2, ?_, rfl, rfl,
    by decide⟩
  exact (generate_feedback_spec p p).2.mpr le_rfl

/-- C5: for every validated run the summary averages are the arithmetic means
of the PredictedRevenue and ActualRevenue columns: the series is non-empty,
each average equals the column sum divided by the length, and multiplying
back by the (non-zero) length recovers the sum. -/
theorem summary_means_C5 (d : Predictions) (u : ℚ) (hv : ValidPredictions d) :
    0 < (runSimulation d u).length
    ∧ avgPred (runSimulation d u)
        = ((runSimulation d u).map (·.predictedRevenue)).sum / (runSimulation d u).length
    ∧ avgAct (runSimulation d u)
        = ((runSimulation d u).map (·.actualRevenue)).sum / (runSimulation d u).length
    ∧ avgPred (runSimulation d u) * (runSimulation d u).length
        = ((runSimulation d u).map (·.predictedRevenue)).sum
    ∧ avgAct (runSimulation d u) * (runSimulation d u).length
        = ((runSimulation d u).map (·.actualRevenue)).sum := by
  have hlen := runSimulation_length d u
  have hm : 1 ≤ d.Months := hv.2.2.2.2.2.2.1
  have hpos : 0 < (runSimulation d u).length := by omega
  have hq : ((runSimulation d u).length : ℚ) ≠ 0 := by
    exact_mod_cast Nat.pos_iff_ne_zero.mp hpos
  refine ⟨hpos, ?_, ?_, ?_, ?_⟩
  · unfold avgPred colMean; rw [List.length_map]
  · unfold avgAct colMean; rw [List.length_map]
  · unfold avgPred colMean; rw [List.length_map, div_mul_cancel₀ _ hq]
  · unfold avgAct colMean; rw [List.length_map, div_mul_cancel₀ _ hq]

/-- Witness for C5 at revenue 1000, cost 500, growth 10, months 3, u = 0. -/
theorem summary_means_C5_witness :
    ValidPredictions ⟨1000, 500, 10, 3⟩
    ∧ 0 < (runSimulation ⟨1000, 500, 10, 3⟩ 0).length :=
  ⟨by decide, (summary_means_C5 ⟨1000, 500, 10, 3⟩ 0 (by decide)).1⟩

/-- C6: in growth mode the Cost field of every record of a run equals the
run's input cost, independently of the month index, growth rate and actual
factor. -/
theorem cost_constant_C6 (d : Predictions) (u : ℚ) :
    ∀ r ∈ runSimulation d u, r.cost = d.Cost := by
  intro r hr
  obtain ⟨i, -, rfl⟩ := runSimulation_mem d u r hr
  rfl

/-- Witness for C6: the single record of a one-month run with cost 500. -/
theorem cost_constant_C6_witness :
    (⟨1, 1000, 1000, 500⟩ : PeriodRecord) ∈ runSimulation ⟨1000, 500, 0, 1⟩ (1/2)
    ∧ (PeriodRecord.mk 1 1000 1000 500).cost = 500 :=
  ⟨by simp [runSimulation, actualFactor, List.range_succ]; norm_num,
   cost_constant_C6 ⟨1000, 500, 0, 1⟩ (1/2) ⟨1, 1000, 1000, 500⟩
     (by simp [runSimulation, actualFactor, List.range_succ]; norm_num)⟩

/-- C7: the SaaS-mode variant (modelled from the spec, §4.1) satisfies the
stated recurrence for every month m ≥ 1 — churned(m) = customers(m−1)·churn,
newCustomers = budget/cac guarded by cac > 0, customers(m) =
customers(m−1) − churned(m) + newCustomers, mrr(m) = customers(m)·arpu — and
Scenario C (customers 100, churn 5%, cac 200, budget 5000, arpu 100,
months 1) yields churned 5, newCustomers 25, customers 120, mrr 12000. -/
theorem saas_recurrence_C7 (p : SaasParams) (m : ℕ) (h1 : 1 ≤ m) :
    saasChurned p m = saasCustomers p (m - 1) * p.churnRate
    ∧ saasNewCustomers p = (if p.cac > 0 then p.marketingBudget / p.cac else 0)
    ∧ saasCustomers p m = saasCustomers p (m - 1) - saasChurned p m + saasNewCustomers p
    ∧ saasMrr p m = saasCustomers p m * p.arpu
    ∧ saasSimulate ⟨0, 100, 5/100, 200, 5000, 100, 1⟩ = [⟨1, 120, 12000, 25, 5⟩] := by
  obtain ⟨k, rfl⟩ := Nat.exists_eq_add_of_le h1
  rw [Nat.add_comm 1 k]
  refine ⟨rfl, rfl, rfl, rfl, ?_⟩
  simp [saasSimulate, List.range_succ, saasCustomers, saasMrr, saasChurned,
    saasNewCustomers, round2, round_eq]
  norm_num

/-- Witness for C7 at the Scenario C parameters with m = 1. -/
theorem saas_recurrence_C7_witness :
    (1 : ℕ) ≤ 1
    ∧ saasSimulate ⟨0, 100, 5/100, 200, 5000, 100, 1⟩ = [⟨1, 120, 12000, 25, 5⟩] :=
  ⟨le_refl 1,
   (saas_recurrence_C7 ⟨0, 100, 5/100, 200, 5000, 100, 1⟩ 1 (le_refl 1)).2.2.2.2⟩

/-- C8: the PDF report's drawn lines are exactly the title, the two formatted
summary averages, the recommendations heading, one line per feedback tip, the
table heading and one table line per record in order (so no record is
dropped); the table rows keep every drawn y at or above the 50-point budget
line, consecutive rows either step 15 points down on the same page while the
budget allows or open a new page at the top margin exactly when it is
exhausted; and every currency string is an integer part with thousands
separators followed by exactly two decimal digits. -/
theorem pdf_report_complete_C8 (df : List PeriodRecord) (ap aa : ℚ)
    (fb : List String) (hfb : fb.length ≤ 3) :
    ((generate_pdf_report df ap aa fb).map (fun e => e.2.2)
        = ["Business Strategy Simulation Report",
           "Predicted Average Revenue: $" ++ fmtCurrency ap,
           "Actual Average Revenue: $" ++ fmtCurrency aa,
           "Recommendations:"]
          ++ fb.map (fun t => "- " ++ t)
          ++ "Simulation Data:" :: df.map rowLine)
    ∧ (pdfRows df 1 (pdfHeight - 150 - 20 * fb.length - 20 - 20)).length = df.length
    ∧ (∀ e ∈ pdfRows df 1 (pdfHeight - 150 - 20 * fb.length - 20 - 20), 50 ≤ e.2.1)
    ∧ List.Chain' rowStep (pdfRows df 1 (pdfHeight - 150 - 20 * fb.length - 20 - 20))
    ∧ (∀ q : ℚ, ∃ s k, fmtCurrency q = s ++ "." ++ twoDigits k ∧ (twoDigits k).length = 2) := by
  refine ⟨?_, pdfRows_length _ _ _, ?_, pdfRows_chain _ _ _, ?_⟩
  · simp [generate_pdf_report, tipLines_texts, pdfRows_texts]
  · apply pdfRows_y_ge
    have : (fb.length : ℚ) ≤ 3 := by exact_mod_cast hfb
    have hh : pdfHeight = 106920 / 127 := by norm_num [pdfHeight]
    rw [hh]
    linarith
  · intro q
    exact ⟨withSeparators ((round (q * 100)).toNat / 100),
      (round (q * 100)).toNat % 100, rfl, rfl⟩

/-- Witness for C8: a one-row table with a one-tip feedback list. -/
theorem pdf_report_complete_C8_witness :
    ([("x" : String)].length ≤ 3)
    ∧ (pdfRows [⟨1, 1000, 1000, 500⟩] 1
        (pdfHeight - 150 - 20 * ([("x" : String)].length) - 20 - 20)).length = 1 :=
  ⟨by decide,
   (pdf_report_complete_C8 [⟨1, 1000, 1000, 500⟩] 0 0 ["x"] (by decide)).2.1⟩

/-- C9: for every validated run the feedback branch is decided by the actual
factor alone: the scale-up list appears iff the factor exceeds 1, the
review-costs list iff it is ≤ 1, independently of growth rate, months, cost
and revenue magnitude. -/
theorem feedback_from_factor_C9 (d : Predictions) (u : ℚ) (hv : ValidPredictions d) :
    (generate_feedback (avgPred (runSimulation d u)) (avgAct (runSimulation d u))
        = scaleUpMsgs ↔ 1 < actualFactor u)
    ∧ (generate_feedback (avgPred (runSimulation d u)) (avgAct (runSimulation d u))
        = reviewCostsMsgs ↔ actualFactor u ≤ 1) := by
  have hA := avgPred_pos d u hv
  have heq := avgAct_eq_avgPred_mul d u
  have hs := generate_feedback_spec (avgPred (runSimulation d u))
    (avgAct (runSimulation d u))
  constructor
  · rw [hs.1, heq]
    exact lt_mul_iff_one_lt_right hA
  · rw [hs.2, heq]
    exact mul_le_iff_le_one_right hA

/-- Witness for C9 at revenue 1000, cost 500, growth 10, months 3, u = 0. -/
theorem feedback_from_factor_C9_witness :
    ValidPredictions ⟨1000, 500, 10, 3⟩
    ∧ (generate_feedback (avgPred (runSimulation ⟨1000, 500, 10, 3⟩ 0))
          (avgAct (runSimulation ⟨1000, 500, 10, 3⟩ 0))
        = reviewCostsMsgs ↔ actualFactor 0 ≤ 1) :=
  ⟨by decide, (feedback_from_factor_C9 ⟨1000, 500, 10, 3⟩ 0 (by decide)).2⟩

/-- C10: `download_link` only assigns mime and ext for the file types "csv"
and "excel"; for every other file type it fails (modelled as `none`,
the `UnboundLocalError` path) instead of returning a link, while the two
supported types do return a link. -/
theorem download_link_partial_C10 (b64 : String) :
    (∀ ft : String, ft ≠ "csv" → ft ≠ "excel" → download_link b64 ft = none)
    ∧ download_link b64 "pdf" = none
    ∧ download_link b64 "" = none
    ∧ (download_link b64 "csv").isSome = true
    ∧ (download_link b64 "excel").isSome = true := by
  refine ⟨?_, rfl, rfl, rfl, rfl⟩
  intro ft h1 h2
  simp [download_link, h1, h2]

/-- Witness for C10: file type "pdf" is neither "csv" nor "excel" and yields
no link. -/
theorem download_link_partial_C10_witness :
    ("pdf" : String) ≠ "csv" ∧ ("pdf" : String) ≠ "excel"
    ∧ download_link "" "pdf" = none :=
  ⟨by decide, by decide,
   (download_link_partial_C10 "").1 "pdf" (by decide) (by decide)⟩

end StrategySim
